import Mathlib

/-!
A shallow embedding, in Lean, of the work-unit graph construction performed by
`VariantCallingGATK.run` (src/lib/bsf/analyses/variant_calling.py), of the
`run_bowtie2` runnable (src/lib/bsf/runnables/bowtie2.py) and of
`extract_illumina_barcodes` (src/lib/bsf/analyses/picard.py), together with
theorems checking the specified behaviour of those routines.
-/

/-! ## File-system model

Graph construction consults the file system only through `os.path.exists` and
`os.path.getsize`.  A file system is modelled as a map from a path to `some
size` when the file exists (with that size in bytes) and `none` otherwise. -/

/-- A file system snapshot: `some n` when the path exists with size `n`. -/
def FileSys : Type := String → Option Nat

/-- Embeds `os.path.exists`. -/
def pathExists (fs : FileSys) (p : String) : Bool := (fs p).isSome

/-- Embeds `os.path.getsize`.  All call sites guard it behind
`os.path.exists`, so a missing file is reported here as size 0. -/
def getSize (fs : FileSys) (p : String) : Nat := (fs p).getD 0

/-- Embeds `os.path.join(dir, p)` for a relative `p` and a directory that does
not end in a slash, which is how the analysis joins `genome_directory` with
its file names. -/
def joinPath (dir p : String) : String := dir ++ "/" ++ p

/-- The truth value of the Python condition
`os.path.exists(p) and os.path.getsize(p)` used by every checkpoint test. -/
def existsNonEmpty (fs : FileSys) (p : String) : Bool :=
  pathExists fs p && decide (getSize fs p ≠ 0)

/-- The propositional reading of `existsNonEmpty`: the path exists with size
greater than zero. -/
def ArtifactPresent (fs : FileSys) (p : String) : Prop :=
  ∃ n, fs p = some n ∧ 0 < n

/-- A `Decidable` instance for the string order that the kernel can
evaluate, routed through the character-list order; Python 2 compares plain
strings byte-wise, which coincides with this order on the ASCII names the
analysis handles. -/
instance (priority := 2000) strDecLtFast : DecidableRel (α := String) (· < ·) :=
  fun a b => decidable_of_iff (a.toList < b.toList) String.lt_iff_toList_lt.symm

/-- Kernel-evaluable `Decidable` instance for the string `≤` order. -/
instance (priority := 2000) strDecLeFast : DecidableRel (α := String) (· ≤ ·) :=
  fun a b => decidable_of_iff (a.toList ≤ b.toList) String.le_iff_toList_le.symm

/-! ## The claim-relevant fields of `bsf.Executable` and `bsf.data.Sample`

`bsf.Executable` (bsf/__init__.py, outside src/) carries, among option
tables irrelevant to the claims, a name, a submit flag that defaults to
`True` (spec section 3: "submit flag (boolean, defaults true)") and a list of
dependency names that starts empty. -/

structure Executable where
  name : String
  submit : Bool := true
  dependencies : List String := []
  deriving DecidableEq, Repr

/-- The claim-relevant view of a `bsf.data.Sample` (entity model, an external
collaborator per the spec): its name, and the key list of the Python dict
returned by `Sample.get_all_paired_reads`.  Keys of a Python dict are
pairwise distinct; claims take that as a hypothesis where it matters.  The
order of `replicate_keys` is the arbitrary dict iteration order, which
`run()` sorts before use. -/
structure Sample where
  name : String
  replicate_keys : List String
  deriving DecidableEq, Repr

/-! ## Stage and artifact names

`VariantCallingGATK.run` derives every unit name and file name from the four
DRMS (stage) names and the replicate/sample/cohort key, exactly as in the
source (variant_calling.py lines 772-803, 884-886, 926-950, 1275-1291,
1561-1589). -/

def alignLaneStage : String := "variant_calling_align_lane"
def processLaneStage : String := "variant_calling_process_lane"
def processSampleStage : String := "variant_calling_process_sample"
def processCohortStage : String := "variant_calling_process_cohort"

/-- Line 909: the `run_bwa` Executable name, `drms.name + '_' + replicate_key`. -/
def runBwaName (k : String) : String := alignLaneStage ++ "_" ++ k

/-- Line 886: `aligned_md5`, the align-lane unit's terminal artifact. -/
def alignedMd5 (k : String) : String := alignLaneStage ++ "_" ++ k ++ ".bam.md5"

/-- Line 926: `prefix_lane`, also the name of the process-lane unit. -/
def laneUnitName (k : String) : String := processLaneStage ++ "_" ++ k

/-- Line 950: `alignment_summary_metrics`, the process-lane unit's terminal
artifact. -/
def laneMetrics (k : String) : String :=
  laneUnitName k ++ "_alignment_summary_metrics.csv"

/-- Line 948: `recalibrated_bam`, collected per sample as merge input. -/
def laneRecalibratedBam (k : String) : String :=
  laneUnitName k ++ "_recalibrated.bam"

/-- Line 1275: `prefix_sample`, also the name of the process-sample unit. -/
def sampleUnitName (s : String) : String := processSampleStage ++ "_" ++ s

/-- Line 1291: `raw_variants_gvcf_idx`, the process-sample unit's terminal
artifact. -/
def sampleGvcfIdx (s : String) : String :=
  sampleUnitName s ++ "_raw_variants_gvcf.vcf.idx"

/-- Line 1290: `raw_variants_gvcf_vcf`, collected per cohort. -/
def sampleGvcfVcf (s : String) : String :=
  sampleUnitName s ++ "_raw_variants_gvcf.vcf"

/-- Line 1561: `prefix_cohort`, also the name of the process-cohort unit. -/
def cohortUnitName (c : String) : String := processCohortStage ++ "_" ++ c

/-! ## Sorting

Line 767 sorts the sample list with `cmp` on the sample name; lines 823-824
sort the replicate keys.  Python's `list.sort` is a stable sort; so is
`List.insertionSort`, hence both produce the same list. -/

def sampleLe (a b : Sample) : Prop := a.name ≤ b.name

instance : DecidableRel sampleLe := fun a b =>
  inferInstanceAs (Decidable (a.name ≤ b.name))

instance : IsTotal Sample sampleLe := ⟨fun a b => le_total a.name b.name⟩

instance : IsTrans Sample sampleLe := ⟨fun _ _ _ h h' => le_trans h h'⟩

/-- Line 767: `self.samples.sort(cmp=lambda x, y: cmp(x.name, y.name))`. -/
def sortSamples (l : List Sample) : List Sample := List.insertionSort sampleLe l

/-- Lines 823-824: `replicate_keys.sort(cmp=lambda x, y: cmp(x, y))`. -/
def sortKeys (l : List String) : List String :=
  List.insertionSort (fun a b : String => a ≤ b) l

/-! ## Checkpoint test and the three checkpointed unit builders -/

/-- Lines 914-919, 1252-1257 and 1538-1543 of variant_calling.py: the submit
flag is set to `False` exactly when the designated file exists with non-zero
size; otherwise the Executable is left unchanged. -/
def applyCheckpoint (fs : FileSys) (p : String) (e : Executable) : Executable :=
  if existsNonEmpty fs p then { e with submit := false } else e

/-- Lines 908-924: the `run_bwa` Executable of the align-lane stage.  It is
created with the default submit flag and no dependencies, then checkpointed
against `aligned_md5`. -/
def mkRunBwa (fs : FileSys) (dir k : String) : Executable :=
  applyCheckpoint fs (joinPath dir (alignedMd5 k)) { name := runBwaName k }

/-- Lines 1247-1259: the process-lane Executable, checkpointed against
`alignment_summary_metrics`, then `dependencies.append(run_bwa.name)`. -/
def mkProcessLane (fs : FileSys) (dir k : String) : Executable :=
  let e := applyCheckpoint fs (joinPath dir (laneMetrics k)) { name := laneUnitName k }
  { e with dependencies := e.dependencies ++ [runBwaName k] }

/-- Lines 1533-1545: the process-sample Executable, checkpointed against
`raw_variants_gvcf_idx`, then
`dependencies.extend(vc_process_sample_dependencies)`. -/
def mkProcessSample (fs : FileSys) (dir sname : String) (deps : List String) :
    Executable :=
  let e := applyCheckpoint fs (joinPath dir (sampleGvcfIdx sname))
    { name := sampleUnitName sname }
  { e with dependencies := e.dependencies ++ deps }

/-! ## The two nested loops of `VariantCallingGATK.run` -/

/-- The mutable lists accumulated across the outer loop of `run()`:
the executable lists of the four DRMS objects and the two cohort-scoped
running lists (lines 805-806). -/
structure BuildState where
  alignLane : List Executable := []
  processLane : List Executable := []
  processSample : List Executable := []
  cohortDeps : List String := []
  cohortVariants : List String := []
  deriving DecidableEq, Repr

/-- One iteration of the replicate loop (lines 826-1264), restricted to the
claim-relevant effects: one Executable appended to each of the align-lane and
process-lane stages, the process-lane name appended to
`vc_process_sample_dependencies` and the recalibrated BAM appended to
`vc_process_sample_replicates`. -/
def replicateStep (fs : FileSys) (dir : String)
    (acc : BuildState × List String × List String) (k : String) :
    BuildState × List String × List String :=
  (⟨acc.1.alignLane ++ [mkRunBwa fs dir k],
    acc.1.processLane ++ [mkProcessLane fs dir k],
    acc.1.processSample, acc.1.cohortDeps, acc.1.cohortVariants⟩,
   acc.2.1 ++ [laneUnitName k],
   acc.2.2 ++ [laneRecalibratedBam k])

/-- One iteration of the sample loop (lines 808-1550): sort the replicate
keys, run the replicate loop with empty sample-scoped lists, build the
process-sample Executable from the collected dependency names, and append its
name and GVCF to the cohort-scoped lists (lines 1547-1550). -/
def sampleStep (fs : FileSys) (dir : String) (st : BuildState) (s : Sample) :
    BuildState :=
  let inner := (sortKeys s.replicate_keys).foldl (replicateStep fs dir) (st, [], [])
  let u := mkProcessSample fs dir s.name inner.2.1
  ⟨inner.1.alignLane, inner.1.processLane, inner.1.processSample ++ [u],
    inner.1.cohortDeps ++ [u.name],
    inner.1.cohortVariants ++ [sampleGvcfVcf s.name]⟩

/-- The executable lists of the four stages produced by one call of
`VariantCallingGATK.run`. -/
@[ext]
structure VCGraph where
  alignLane : List Executable
  processLane : List Executable
  processSample : List Executable
  processCohort : List Executable
  deriving DecidableEq, Repr

/-- `VariantCallingGATK.run` (lines 713-2121), restricted to the work-unit
graph it builds: sort the samples by name, run the sample loop, then build
the single cohort Executable whose dependency list is
`vc_process_cohort_dependencies` (lines 2116-2121).  The cohort unit has no
checkpoint test, so its submit flag keeps its default. -/
def runVariantCallingGATK (fs : FileSys) (dir cohortName : String)
    (samples : List Sample) : VCGraph :=
  let st := (sortSamples samples).foldl (sampleStep fs dir) {}
  ⟨st.alignLane, st.processLane, st.processSample,
    [{ name := cohortUnitName cohortName, dependencies := [] ++ st.cohortDeps }]⟩

/-! ## Characterisation of the built graph -/

/-- The (sample name, replicate key) pairs in the order the two loops visit
them. -/
def samplePairs (s : Sample) : List (String × String) :=
  (sortKeys s.replicate_keys).map (fun k => (s.name, k))

def replicatePairs (samples : List Sample) : List (String × String) :=
  (sortSamples samples).flatMap samplePairs

/-- Test fixture (C1): a file system holding exactly one non-empty
align-lane MD5 artifact. -/
def c1fs : FileSys := fun p =>
  if p = "gd/variant_calling_align_lane_L1.bam.md5" then some 3 else none

/-- Test fixture (C1): one sample with one replicate. -/
def c1samples : List Sample := [⟨"A", ["L1"]⟩]

/-! ## Model of the bowtie2 runnable (src/lib/bsf/runnables/bowtie2.py)

`run_bowtie2` is the execution-time body of a Work Unit.  Its inputs are the
`Runnable` handed over by the front end and the external world: the file
system, the exit status of every external command it spawns, and the SAM
read-group header lines that `samtools view -H` extracts from a BAM file
(the content of input BAM files is external data, so it is part of the
environment). -/

/-- Decidable equality for `Except`, used to evaluate model runs on
concrete inputs. -/
instance exceptDecEq {e : Type} {a : Type} [DecidableEq e] [DecidableEq a] :
    DecidableEq (Except e a) := fun x y =>
  match x, y with
  | Except.error u, Except.error v =>
    if h : u = v then isTrue (by rw [h])
    else isFalse (fun hh => h (Except.error.inj hh))
  | Except.error _, Except.ok _ => isFalse (fun hh => Except.noConfusion hh)
  | Except.ok _, Except.error _ => isFalse (fun hh => Except.noConfusion hh)
  | Except.ok u, Except.ok v =>
    if h : u = v then isTrue (by rw [h])
    else isFalse (fun hh => h (Except.ok.inj hh))

/-- Python exception values raised by the modelled code. -/
inductive PyErr
  | nameError (n : String)
  | indexError
  | typeError
  | valueError
  | attributeError
  | exception (msg : String)
  deriving DecidableEq, Repr

/-- Lines 42-68 of bowtie2.py: a `ReadGroupContainer`, with every field
defaulting to the empty string. -/
structure ReadGroupContainer where
  rg_string : String
  fastq_1_path : String
  fastq_2_path : String
  deriving DecidableEq, Repr

/-- The external world consulted by the bowtie2 runnable. -/
structure BowtieEnv where
  fs : FileSys
  exitCode : String → Nat
  samReadGroupLines : String → List String

/-- The claim-relevant fields of the `Runnable` handed to
`bsf.runnables.bowtie2.run`: the three entries of `file_path_dict` the module
reads, the value strings of the Bowtie2 `-U` options (line 215) and the
configured stdout path (line 216). -/
structure BowtieRunnable where
  replicate_directory : String
  temporary_directory : String
  aligned_sam : String
  u_values : List String
  stdout_path : String
  deriving DecidableEq, Repr

/-- Splitting a character list at every separator matched by `p`,
keeping empty fields, as Python `str.split(sep)` does. -/
def splitByAux (p : Char → Bool) : List Char → List Char → List String
  | [], acc => [String.mk acc.reverse]
  | x :: xs, acc =>
    if p x then String.mk acc.reverse :: splitByAux p xs []
    else splitByAux p xs (x :: acc)

def splitBy (p : Char → Bool) (s : String) : List String := splitByAux p s.data []

/-- Python `str.split()` with no argument: split on whitespace runs (no
empty fields). -/
def pySplitWs (s : String) : List String :=
  (splitBy (fun c => c == ' ' || c == '\t') s).filter (fun t => ¬ t.data.isEmpty)

/-- Python `str.split(',')`: split at every comma, keeping empty fields. -/
def pySplitComma (s : String) : List String := splitBy (fun c => c == ',') s

/-- Python `s.endswith(t)`, as used by the slice comparison of line 226. -/
def pyEndsWith (s t : String) : Bool := List.isSuffixOf t.data s.data

/-- Line 173: `re.sub(pattern='\W', repl='_', string=...)` - every character
outside `[a-zA-Z0-9_]` becomes an underscore. -/
def sanitizeWord (s : String) : String :=
  String.mk (s.data.map (fun c => if c.isAlphanum || c == '_' then c else '_'))

/-- Lines 170-183 of bowtie2.py, one element of `sam_rg.split()`: a `PU:`
element determines the per-read-group FASTQ paths Picard produced; the paths
are adopted when they exist non-empty, and a read group without an R1 FASTQ
raises. -/
def rgcElementStep (env : BowtieEnv) (tmpDir : String)
    (rgc : ReadGroupContainer) (element : String) :
    Except PyErr ReadGroupContainer :=
  if element.take 3 = "PU:" then
    let pu := sanitizeWord (element.drop 3)
    let r1 := joinPath tmpDir (pu ++ "_1.fastq")
    let r2 := joinPath tmpDir (pu ++ "_2.fastq")
    let rgc1 := if existsNonEmpty env.fs r1 then { rgc with fastq_1_path := r1 } else rgc
    let rgc2 := if existsNonEmpty env.fs r2 then { rgc1 with fastq_2_path := r2 } else rgc1
    if rgc2.fastq_1_path = "" then
      Except.error (PyErr.exception "SAM Read Group without R1 FASTQ file")
    else Except.ok rgc2
  else Except.ok rgc

/-- Lines 167-185: build one `ReadGroupContainer` from one `@RG` header
line. -/
def rgcOfLine (env : BowtieEnv) (tmpDir : String) (line : String) :
    Except PyErr ReadGroupContainer :=
  (pySplitWs line).foldlM (rgcElementStep env tmpDir) ⟨line, "", ""⟩

/-- Lines 97-185: `run_picard_sam_to_fastq`.  Returns the read-group
containers together with the external commands it spawned; a non-zero exit
status of either command raises (lines 123-127, 160-162). -/
def runPicardSamToFastq (env : BowtieEnv) (tmpDir bam : String) :
    Except PyErr (List ReadGroupContainer) × List String :=
  let cmd1 := "samtools view -H " ++ bam
  if env.exitCode cmd1 ≠ 0 then
    (Except.error (PyErr.exception "samtools_view failed"), [cmd1])
  else
    let cmd2 := "java SamToFastq INPUT=" ++ bam
    if env.exitCode cmd2 ≠ 0 then
      (Except.error (PyErr.exception "sam_to_fastq failed"), [cmd1, cmd2])
    else
      match (env.samReadGroupLines bam).mapM (rgcOfLine env tmpDir) with
      | Except.ok rgcs => (Except.ok rgcs, [cmd1, cmd2])
      | Except.error e => (Except.error e, [cmd1, cmd2])

/-- Lines 223-229 of `run_bowtie2`: expand every `-U` path; `.bam` paths go
through Picard SamToFastq, the rest are collected as plain FASTQ files. -/
def expandPaths (env : BowtieEnv) (tmpDir : String) :
    List String → List ReadGroupContainer → List String → List String →
    Except PyErr (List ReadGroupContainer × List String) × List String
  | [], rgcs, fastqs, cmds => (Except.ok (rgcs, fastqs), cmds)
  | fp :: rest, rgcs, fastqs, cmds =>
    if pyEndsWith fp ".bam" then
      match runPicardSamToFastq env tmpDir fp with
      | (Except.ok newRgcs, newCmds) =>
        expandPaths env tmpDir rest (rgcs ++ newRgcs) fastqs (cmds ++ newCmds)
      | (Except.error e, newCmds) => (Except.error e, cmds ++ newCmds)
    else expandPaths env tmpDir rest rgcs (fastqs ++ [fp]) cmds

/-- Lines 235-269 of `run_bowtie2`: align each read-group container,
collecting one SAM file path per container. -/
def processRGCs (env : BowtieEnv) :
    List ReadGroupContainer → List String → List String →
    Except PyErr (List String) × List String
  | [], sams, cmds => (Except.ok sams, cmds)
  | rgc :: rest, sams, cmds =>
    if rgc.fastq_1_path ≠ "" ∧ rgc.fastq_2_path ≠ "" then
      let sam := rgc.fastq_1_path.dropRight 8 ++ ".sam"
      let cmd := "bowtie2 -1 " ++ rgc.fastq_1_path ++ " -2 " ++ rgc.fastq_2_path
        ++ " > " ++ sam
      if env.exitCode cmd ≠ 0 then
        (Except.error (PyErr.exception "bowtie2 failed"), cmds ++ [cmd])
      else processRGCs env rest (sams ++ [sam]) (cmds ++ [cmd])
    else if rgc.fastq_1_path ≠ "" then
      let sam := rgc.fastq_1_path.dropRight 8 ++ ".sam"
      let cmd := "bowtie2 -U " ++ rgc.fastq_1_path ++ " > " ++ sam
      if env.exitCode cmd ≠ 0 then
        (Except.error (PyErr.exception "bowtie2 failed"), cmds ++ [cmd])
      else processRGCs env rest (sams ++ [sam]) (cmds ++ [cmd])
    else if rgc.fastq_2_path ≠ "" then
      (Except.error (PyErr.exception "R2 FASTQ without R1 FASTQ"), cmds)
    else
      (Except.error (PyErr.exception "neither R1 nor R2 FASTQ"), cmds)

/-- Lines 273-291 of `run_bowtie2`: align the plain FASTQ files, if any, into
one further SAM file. -/
def processFastqs (env : BowtieEnv) (tmpDir : String) (fastqs : List String)
    (sams cmds : List String) : Except PyErr (List String) × List String :=
  if fastqs.isEmpty then (Except.ok sams, cmds)
  else
    let sam := joinPath tmpDir "all_fastq_files.sam"
    let cmd := "bowtie2 -U " ++ String.intercalate "," fastqs ++ " > " ++ sam
    if env.exitCode cmd ≠ 0 then
      (Except.error (PyErr.exception "bowtie2 failed"), cmds ++ [cmd])
    else (Except.ok (sams ++ [sam]), cmds ++ [cmd])

/-- Everything `run_bowtie2` does between the early-return test and the merge
decision (lines 210-291): the resulting `sam_file_path_list` and the command
log. -/
def alignmentPhase (env : BowtieEnv) (r : BowtieRunnable) :
    Except PyErr (List String) × List String :=
  let paths := r.u_values.flatMap pySplitComma
  match expandPaths env r.temporary_directory paths [] [] [] with
  | (Except.error e, cmds) => (Except.error e, cmds)
  | (Except.ok (rgcs, fastqs), cmds) =>
    match processRGCs env rgcs [] cmds with
    | (Except.error e, cmds') => (Except.error e, cmds')
    | (Except.ok sams, cmds') => processFastqs env r.temporary_directory fastqs sams cmds'

/-- The names visible inside `run_bowtie2` when the merge branch (lines
296-314) runs: the module-level bindings of bowtie2.py (imports on lines
30-39, top-level definitions on lines 42, 97, 188, 317), the local variables
the function has assigned by then (lines 197-289), and the builtins it
touches.  Neither `default` nor `bam_file_path` is ever bound in this
scope - `default` is only a local of `run_picard_sam_to_fastq` (line 106) and
`bam_file_path` only one of its parameters (line 97). -/
def runBowtie2Scope : List String :=
  ["errno", "os", "re", "shutil", "string", "bsf",
   "Command", "Default", "Executable", "Runnable", "OptionShort", "Bowtie2",
   "ReadGroupContainer", "run_picard_sam_to_fastq", "run_bowtie2", "run",
   "runnable", "path_replicate", "bowtie2", "option_list", "aligned_sam",
   "rgc_list", "fastq_list", "option", "file_path", "sam_file_path_list",
   "rgc", "sam_file_path", "child_return_code", "java_process",
   "len", "list", "str", "isinstance", "print"]

/-- Python name resolution inside `run_bowtie2`. -/
def resolveName (n : String) : Except PyErr Unit :=
  if n ∈ runBowtie2Scope then Except.ok () else Except.error (PyErr.nameError n)

/-- The merge branch of `run_bowtie2` (lines 296-314), as the sequence of
name lookups its statements perform; it spawns no external command.  Line 300
resolves `Executable` and `Command`; line 302 resolves `os` and then
`default`, which is unbound, so a NameError is raised there; line 307 would
later resolve `bam_file_path`, which is unbound as well. -/
def mergeBranch : Except PyErr Unit := do
  let _ ← resolveName "Executable"
  let _ ← resolveName "Command"
  let _ ← resolveName "os"
  let _ ← resolveName "default"
  let _ ← resolveName "runnable"
  let _ ← resolveName "bam_file_path"
  Except.ok ()

/-- Lines 188-314: `run_bowtie2`.  If the aligned SAM already exists with
non-zero size the function returns at once (lines 206-208); otherwise it
aligns, and when more than one SAM file was accumulated it enters the merge
branch. -/
def runBowtie2 (env : BowtieEnv) (r : BowtieRunnable) :
    Except PyErr Unit × List String :=
  if existsNonEmpty env.fs r.aligned_sam then (Except.ok (), [])
  else
    match alignmentPhase env r with
    | (Except.error e, cmds) => (Except.error e, cmds)
    | (Except.ok sams, cmds) =>
      if sams.length > 1 then (mergeBranch, cmds) else (Except.ok (), cmds)

/-- Lines 317-350: `run`, which creates directories, calls `run_bowtie2` and
removes the temporary directory; an exception raised by `run_bowtie2`
propagates, so `run` never completes on such inputs. -/
def runBowtie2Runnable (env : BowtieEnv) (r : BowtieRunnable) :
    Except PyErr Unit × List String :=
  match runBowtie2 env r with
  | (Except.error e, cmds) => (Except.error e, cmds)
  | (Except.ok (), cmds) => (Except.ok (), cmds)

/-! ## Model of `extract_illumina_barcodes` (src/lib/bsf/analyses/picard.py)

The configuration and annotation-sheet readers are external collaborators
(spec section 1), so the model takes the already-built `barcode_dict`
(lines 138-143), the run-folder data and the two optional options as
input and replays the per-lane loop (lines 165-328). -/

/-- One `sample_dict` built by `_process_row_dict` (lines 56-90), minus the
`lane` field, which is the enclosing dict key. -/
structure LaneSample where
  barcode_sequence_1 : String
  barcode_sequence_2 : String
  library_name : String
  sample_name : String
  deriving DecidableEq, Repr

/-- One read of `irf.run_information.reads`: its number and cycle count. -/
structure IlluminaRead where
  number : Nat
  cycles : Int
  deriving DecidableEq, Repr

/-- The inputs of `extract_illumina_barcodes` after configuration and
annotation-sheet reading. -/
structure EIBConfig where
  barcode_dict : List (String × List LaneSample)
  reads : List IlluminaRead
  flow_cell : String
  base_calls_directory : String
  project_directory : String
  max_mismatches : String
  min_base_quality : String
  eib_threads : Nat
  deriving Repr

/-- Opening brace character, written by code point. -/
def lbrace : Char := Char.ofNat 123

/-- Closing brace character, written by code point. -/
def rbrace : Char := Char.ofNat 125

/-- Python `str.format` restricted to empty-brace placeholders, which is the
only form the modelled code uses: each placeholder consumes the next
positional argument; a placeholder without a remaining argument raises
IndexError (as `'...\x7b\x7d'.format()` does); a stray single brace raises
ValueError. -/
def pyFormatAux : List Char → List String → Except PyErr (List Char)
  | [], _ => Except.ok []
  | c :: cs, args =>
    if c = lbrace then
      match cs with
      | c2 :: cs2 =>
        if c2 = rbrace then
          match args with
          | [] => Except.error PyErr.indexError
          | a :: rest =>
            match pyFormatAux cs2 rest with
            | Except.ok tail => Except.ok (a.data ++ tail)
            | Except.error e => Except.error e
        else Except.error PyErr.valueError
      | [] => Except.error PyErr.valueError
    else if c = rbrace then Except.error PyErr.valueError
    else
      match pyFormatAux cs args with
      | Except.ok tail => Except.ok (c :: tail)
      | Except.error e => Except.error e

def pyFormat (template : String) (args : List String) : Except PyErr String :=
  match pyFormatAux template.data args with
  | Except.ok l => Except.ok (String.mk l)
  | Except.error e => Except.error e

/-- Decimal digit accumulation for `pyInt`. -/
def natOfDigitsAux : List Char → Nat → Option Nat
  | [], acc => some acc
  | c :: cs, acc =>
    if c.isDigit then natOfDigitsAux cs (acc * 10 + (c.toNat - 48)) else none

/-- Python `int(s)` on a string: ValueError when the string is not an
integer literal. -/
def pyInt (s : String) : Except PyErr Int :=
  match s.data with
  | [] => Except.error PyErr.valueError
  | '-' :: rest =>
    match rest, natOfDigitsAux rest 0 with
    | [], _ => Except.error PyErr.valueError
    | _ :: _, some n => Except.ok (-(n : Int))
    | _ :: _, none => Except.error PyErr.valueError
  | l => match natOfDigitsAux l 0 with
    | some n => Except.ok (n : Int)
    | none => Except.error PyErr.valueError

/-- The `'L\x7b:03d\x7d'` format of lines 173/183-185: zero-pad to width 3. -/
def padZeros3 (n : Int) : String :=
  let digits := toString n.natAbs
  let padded := String.mk (List.replicate (3 - digits.length) '0') ++ digits
  if n < 0 then "-" ++ padded else padded

/-- Lines 195-210: the fold computing `bc1_length`; `bc1_length` starts at 0
and takes the first lane's value (-1 for `NoIndex` or empty, else the
barcode length); later mismatches only warn. -/
def bc1Step (acc : Int) (ld : LaneSample) : Int :=
  let bc : Int :=
    if ld.barcode_sequence_1 = "NoIndex" ∨ ld.barcode_sequence_1 = "" then -1
    else (ld.barcode_sequence_1.length : Int)
  if acc = 0 then bc else acc

def computeBc1Length (l : List LaneSample) : Int := l.foldl bc1Step 0

/-- Python dict lookup `barcode_dict[key]` for a key of the dict. -/
def lookupLane (k : String) (d : List (String × List LaneSample)) :
    List LaneSample :=
  ((d.find? (fun e => e.1 = k)).map Prod.snd).getD []

/-- Lines 283-299: the ExtractIlluminaBarcodes argument list of one lane.
Line 286 formats `'READ_STRUCTURE=\x7b\x7d'` with no argument.  Line 291
appends the raw `MAX_MISMATCHES` template and calls `.format()` on the
`None` that `append` returned, an AttributeError. -/
def buildEibArguments (cfg : EIBConfig) (laneInt : Int)
    (barcodes_path metrics_path : String) : Except PyErr (List String) := do
  let a1 ← pyFormat "BASECALLS_DIR=\x7b\x7d" [cfg.base_calls_directory]
  let a2 ← pyFormat "LANE=\x7b\x7d" [toString laneInt]
  let a3 ← pyFormat "READ_STRUCTURE=\x7b\x7d" []
  let a4 ← pyFormat "BARCODE_FILE=\x7b\x7d" [barcodes_path]
  let a5 ← pyFormat "METRICS_FILE=\x7b\x7d" [metrics_path]
  let head := [a1, a2, a3, a4, a5]
  let head ← if cfg.max_mismatches ≠ "" then throw PyErr.attributeError
    else pure head
  let head ← if cfg.min_base_quality ≠ "" then do
      let a6 ← pyFormat "MINIMUM_BASE_QUALITY=\x7b\x7d" [cfg.min_base_quality]
      pure (head ++ [a6])
    else pure head
  let a7 ← pyFormat "NUM_PROCESSORS=\x7b\x7d" [toString cfg.eib_threads]
  pure (head ++ [a7, "COMPRESS_OUTPUTS=TRUE"])

/-- Line 173 and 183-185: the per-lane directory and file paths. -/
def eibLanePath (cfg : EIBConfig) (laneInt : Int) : String :=
  joinPath cfg.project_directory ("L" ++ padZeros3 laneInt)

def eibBarcodesPath (cfg : EIBConfig) (laneInt : Int) : String :=
  joinPath (eibLanePath cfg laneInt)
    (cfg.flow_cell ++ "_L" ++ padZeros3 laneInt ++ "_input_barcodes.txt")

def eibMetricsPath (cfg : EIBConfig) (laneInt : Int) : String :=
  joinPath (eibLanePath cfg laneInt)
    (cfg.flow_cell ++ "_L" ++ padZeros3 laneInt ++ "_output_metrics.txt")

/-- Lines 168-299 for one lane key: parse the lane number (line 173), derive
the per-lane paths (lines 173-185), reconcile barcode lengths (lines
192-225, warnings only), run the read-structure check whose mismatch branch
calls `warnings.warn()` with no argument - a TypeError (lines 229-233) - and
build the ExtractIlluminaBarcodes argument list (lines 283-299).  The
directory creation and CSV writing (lines 175-181, 235-264) have no
observable effect in this model. -/
def processEIBLane (cfg : EIBConfig) (key : String) : Except PyErr (List String) := do
  let laneInt ← pyInt key
  if cfg.reads.any (fun rd => rd.number == 1 &&
      rd.cycles != computeBc1Length (lookupLane key cfg.barcode_dict)) then
    throw PyErr.typeError
  else
    buildEibArguments cfg laneInt (eibBarcodesPath cfg laneInt)
      (eibMetricsPath cfg laneInt)

/-- Lines 165-328: sort the lane keys (lines 165-166) and process each lane
in order; the first exception aborts the whole function. -/
def extractIlluminaBarcodes (cfg : EIBConfig) :
    Except PyErr (List (List String)) :=
  (sortKeys (cfg.barcode_dict.map Prod.fst)).mapM (processEIBLane cfg)

/-! ## The serialised Work Unit descriptor (claim C8)

`VariantCallingGATK.run` serialises the align-lane Work Unit with `pickle`
(variant_calling.py lines 891-904); the consuming deserialiser is the
`bsf_run_bwa.py` script, which is part of this repository but not under
src/.  The descriptor and its encoding and decoding are therefore modelled
from the spec (sections 4.4 and 6): a self-contained record carrying every
Task definition, the artifact registry and symbolic dependency names, which
must round-trip through serialize/deserialize without loss. -/

/-- Modelled from the spec: a Task of a Work Unit descriptor (spec section
3) - name, program, ordered argument list, optional output-stream path and
symbolic dependency names. -/
structure WTask where
  name : String
  program : String
  arguments : List String
  stdout_path : Option String
  dependencies : List String
  deriving DecidableEq, Repr

/-- Modelled from the spec: a Work Unit descriptor (spec sections 4.4 and
6) - name, working directory, ordered Task list and the artifact registry
mapping role labels to file paths. -/
structure WorkUnit where
  name : String
  working_directory : String
  tasks : List WTask
  artifacts : List (String × String)
  deriving DecidableEq, Repr

/-- One token of the flat descriptor encoding. -/
inductive SerTok
  | str (s : String)
  | num (n : Nat)
  deriving DecidableEq, Repr

def encodeOptionStr : Option String → List SerTok
  | none => [SerTok.num 0]
  | some s => [SerTok.num 1, SerTok.str s]

def encodeTask (t : WTask) : List SerTok :=
  [SerTok.str t.name, SerTok.str t.program]
    ++ (SerTok.num t.arguments.length :: t.arguments.map SerTok.str)
    ++ encodeOptionStr t.stdout_path
    ++ (SerTok.num t.dependencies.length :: t.dependencies.map SerTok.str)

def encodePair (a : String × String) : List SerTok :=
  [SerTok.str a.1, SerTok.str a.2]

/-- Modelled from the spec: `serialize` produces a self-contained flat
descriptor holding every Task definition and the artifact registry. -/
def serializeUnit (u : WorkUnit) : List SerTok :=
  [SerTok.str u.name, SerTok.str u.working_directory]
    ++ (SerTok.num u.tasks.length :: u.tasks.flatMap encodeTask)
    ++ (SerTok.num u.artifacts.length :: u.artifacts.flatMap encodePair)

def decodeStr : List SerTok → Option (String × List SerTok)
  | SerTok.str s :: rest => some (s, rest)
  | _ => none

def decodeNum : List SerTok → Option (Nat × List SerTok)
  | SerTok.num n :: rest => some (n, rest)
  | _ => none

def decodeStrList : Nat → List SerTok → Option (List String × List SerTok)
  | 0, rest => some ([], rest)
  | n + 1, rest => do
    let (s, r1) ← decodeStr rest
    let (l, r2) ← decodeStrList n r1
    some (s :: l, r2)

def decodeOptionStr : List SerTok → Option (Option String × List SerTok)
  | SerTok.num 0 :: rest => some (none, rest)
  | SerTok.num 1 :: rest => do
    let (s, r1) ← decodeStr rest
    some (some s, r1)
  | _ => none

def decodeTask (toks : List SerTok) : Option (WTask × List SerTok) := do
  let (name, r1) ← decodeStr toks
  let (program, r2) ← decodeStr r1
  let (nargs, r3) ← decodeNum r2
  let (args, r4) ← decodeStrList nargs r3
  let (stdout, r5) ← decodeOptionStr r4
  let (ndeps, r6) ← decodeNum r5
  let (deps, r7) ← decodeStrList ndeps r6
  some (⟨name, program, args, stdout, deps⟩, r7)

def decodeTaskList : Nat → List SerTok → Option (List WTask × List SerTok)
  | 0, rest => some ([], rest)
  | n + 1, rest => do
    let (t, r1) ← decodeTask rest
    let (l, r2) ← decodeTaskList n r1
    some (t :: l, r2)

def decodePair (toks : List SerTok) : Option ((String × String) × List SerTok) := do
  let (a, r1) ← decodeStr toks
  let (b, r2) ← decodeStr r1
  some ((a, b), r2)

def decodePairList : Nat → List SerTok → Option (List (String × String) × List SerTok)
  | 0, rest => some ([], rest)
  | n + 1, rest => do
    let (p, r1) ← decodePair rest
    let (l, r2) ← decodePairList n r1
    some (p :: l, r2)

def decodeUnit (toks : List SerTok) : Option (WorkUnit × List SerTok) := do
  let (name, r1) ← decodeStr toks
  let (wd, r2) ← decodeStr r1
  let (ntasks, r3) ← decodeNum r2
  let (tasks, r4) ← decodeTaskList ntasks r3
  let (nart, r5) ← decodeNum r4
  let (arts, r6) ← decodePairList nart r5
  some (⟨name, wd, tasks, arts⟩, r6)

/-- Modelled from the spec: `deserialize` recovers the Work Unit from a
descriptor; a descriptor with trailing tokens is rejected as not
self-contained. -/
def deserializeUnit (toks : List SerTok) : Option WorkUnit :=
  match decodeUnit toks with
  | some (u, []) => some u
  | _ => none

/-- Modelled from the spec (section 4.4): `run()` executes the contained
Tasks strictly in list order, aborting the whole unit on the first non-zero
exit status; the result records the executed task names, or the name of the
failing task. -/
def executeTasks (exit : WTask → Nat) : List WTask → Except String (List String)
  | [] => Except.ok []
  | t :: ts =>
    if exit t ≠ 0 then Except.error t.name
    else
      match executeTasks exit ts with
      | Except.ok names => Except.ok (t.name :: names)
      | Except.error e => Except.error e

def executeUnit (exit : WTask → Nat) (u : WorkUnit) : Except String (List String) :=
  executeTasks exit u.tasks

/-! ## Concrete test fixtures used by witnesses and counterexamples -/

/-- Test fixture: the empty file system. -/
def noFs : FileSys := fun _ => none

/-- Test fixture (C2): two samples sharing the name `s`, replicate keys in
decreasing order across them. -/
def c2samples : List Sample := [⟨"s", ["b"]⟩, ⟨"s", ["a"]⟩]

/-- Test fixture (C2 witness): two distinct samples, keys out of order. -/
def c2wsamples : List Sample := [⟨"B", ["y", "x"]⟩, ⟨"A", ["z"]⟩]

/-- Test fixture (C3): two samples sharing the name `s`. -/
def c3samples : List Sample := [⟨"s", []⟩, ⟨"s", []⟩]

/-- Test fixture (C3 witness): three distinct samples. -/
def c3wsamples : List Sample := [⟨"C", ["k"]⟩, ⟨"A", []⟩, ⟨"B", ["l"]⟩]

/-- Test fixture (C5): a sample with no replicates next to one with one. -/
def c5samples : List Sample := [⟨"E", []⟩, ⟨"B", ["k"]⟩]

/-- Test fixture (C6): one sample with one replicate. -/
def c6samples : List Sample := [⟨"A", ["L1"]⟩]

/-- Test fixture (C7): a second file system that differs from `noFs` only at
a path that is not a designated terminal artifact of `c1samples`. -/
def c7otherFs : FileSys := fun p => if p = "unrelated.txt" then some 7 else none

/-- Test fixture (C7): a bowtie2 runnable with a single plain FASTQ input. -/
def c7r : BowtieRunnable :=
  { replicate_directory := "rep", temporary_directory := "tmp",
    aligned_sam := "out.sam", u_values := ["x.fastq"], stdout_path := "out.sam" }

/-- Test fixture (C7): environment in which the aligned SAM already exists
non-empty. -/
def c7envPresent : BowtieEnv :=
  { fs := fun p => if p = "out.sam" then some 4 else none,
    exitCode := fun _ => 0, samReadGroupLines := fun _ => [] }

/-- Test fixture (C7): the same environment except that the aligned SAM is
missing. -/
def c7envAbsent : BowtieEnv :=
  { fs := noFs, exitCode := fun _ => 0, samReadGroupLines := fun _ => [] }

/-- Test fixture (C9): environment with one BAM carrying one read group whose
R1 FASTQ exists, all commands succeeding. -/
def c9env : BowtieEnv :=
  { fs := fun p => if p = "tmp/S_1.fastq" then some 10 else none,
    exitCode := fun _ => 0,
    samReadGroupLines := fun b => if b = "a.bam" then ["@RG ID:1 PU:S"] else [] }

/-- Test fixture (C9): a runnable whose `-U` option mixes one BAM and one
FASTQ, so that two SAM files accumulate. -/
def c9r : BowtieRunnable :=
  { replicate_directory := "rep", temporary_directory := "tmp",
    aligned_sam := "out.sam", u_values := ["a.bam,b.fastq"],
    stdout_path := "out.sam" }

/-- The SAM files `c9env`/`c9r` accumulate. -/
def c9sams : List String := ["tmp/S.sam", "tmp/all_fastq_files.sam"]

/-- The commands `c9env`/`c9r` spawn before the merge branch. -/
def c9cmds : List String :=
  ["samtools view -H a.bam", "java SamToFastq INPUT=a.bam",
   "bowtie2 -U tmp/S_1.fastq > tmp/S.sam",
   "bowtie2 -U b.fastq > tmp/all_fastq_files.sam"]

/-- Test fixture (C10): one lane `1` with one barcode, no run-information
reads, optional options unset. -/
def c10cfg : EIBConfig :=
  { barcode_dict := [("1", [⟨"ACGT", "", "lib1", "sample1"⟩])],
    reads := [], flow_cell := "FC", base_calls_directory := "bc",
    project_directory := "proj", max_mismatches := "",
    min_base_quality := "", eib_threads := 2 }

/-- Test fixture (C8): a concrete Work Unit with two tasks. -/
def c8unit : WorkUnit :=
  { name := "variant_calling_align_lane_L1",
    working_directory := "gd",
    tasks :=
      [⟨"bwa_mem", "bwa", ["mem", "-t", "4", "db.fa", "r1.fastq"],
        some "out.sam", []⟩,
       ⟨"sam_sort", "samtools", ["sort", "out.sam"], none, ["bwa_mem"]⟩],
    artifacts :=
      [("aligned_bam", "variant_calling_align_lane_L1.bam"),
       ("aligned_md5", "variant_calling_align_lane_L1.bam.md5")] }

/-- The designated terminal artifact paths the checkpoint tests of one run
consult: one aligned MD5 and one alignment-summary-metrics per replicate,
one raw-variants GVCF index per sample. -/
def designatedPaths (dir : String) (samples : List Sample) : List String :=
  (replicatePairs samples).map (fun p => joinPath dir (alignedMd5 p.2))
    ++ (replicatePairs samples).map (fun p => joinPath dir (laneMetrics p.2))
    ++ (sortSamples samples).map (fun s => joinPath dir (sampleGvcfIdx s.name))

/-- Strict lexicographic order on (sample name, replicate key) pairs. -/
def pairLexLt (p q : String × String) : Prop :=
  p.1 < q.1 ∨ (p.1 = q.1 ∧ p.2 < q.2)

instance : DecidableRel pairLexLt := fun p q =>
  inferInstanceAs (Decidable (p.1 < q.1 ∨ (p.1 = q.1 ∧ p.2 < q.2)))

/-- Strict name order on samples, used to show sorting is unambiguous when
names are distinct. -/
def sampleKeyLt (a b : Sample) : Prop := a.name < b.name

instance : IsAntisymm Sample sampleKeyLt :=
  ⟨fun _ _ h h' => absurd h' (lt_asymm h)⟩

/-- The number of empty-brace placeholders of a format template. -/
def placeholderCount : List Char → Nat
  | [] => 0
  | c :: cs =>
    if c = lbrace then
      match cs with
      | c2 :: cs2 => if c2 = rbrace then placeholderCount cs2 + 1 else 0
      | [] => 0
    else placeholderCount cs

/-- A format template without stray braces. -/
def wellBraced : List Char → Bool
  | [] => true
  | c :: cs =>
    if c = lbrace then
      match cs with
      | c2 :: cs2 => c2 = rbrace && wellBraced cs2
      | [] => false
    else if c = rbrace then false
    else wellBraced cs
theorem existsNonEmpty_iff (fs : FileSys) (p : String) :
    existsNonEmpty fs p = true ↔ ArtifactPresent fs p := by
  unfold existsNonEmpty ArtifactPresent pathExists getSize
  cases h : fs p with
  | none => simp [h]
  | some n =>
    simp only [h, Option.isSome_some, Option.getD_some, Bool.true_and,
      decide_eq_true_eq]
    constructor
    · intro hn
      exact ⟨n, rfl, Nat.pos_of_ne_zero hn⟩
    · rintro ⟨m, hm, hmpos⟩
      cases Option.some.inj hm
      exact Nat.pos_iff_ne_zero.mp hmpos

theorem applyCheckpoint_name (fs : FileSys) (p : String) (e : Executable) :
    (applyCheckpoint fs p e).name = e.name := by
  unfold applyCheckpoint; split <;> rfl

theorem applyCheckpoint_dependencies (fs : FileSys) (p : String) (e : Executable) :
    (applyCheckpoint fs p e).dependencies = e.dependencies := by
  unfold applyCheckpoint; split <;> rfl

theorem applyCheckpoint_submit (fs : FileSys) (p : String) (e : Executable) :
    (applyCheckpoint fs p e).submit =
      if existsNonEmpty fs p then false else e.submit := by
  unfold applyCheckpoint; split <;> rfl

theorem mkRunBwa_name (fs : FileSys) (dir k : String) :
    (mkRunBwa fs dir k).name = runBwaName k := by
  unfold mkRunBwa; rw [applyCheckpoint_name]

theorem mkProcessLane_name (fs : FileSys) (dir k : String) :
    (mkProcessLane fs dir k).name = laneUnitName k := by
  unfold mkProcessLane
  show (applyCheckpoint _ _ _).name = _
  rw [applyCheckpoint_name]

theorem mkProcessSample_name (fs : FileSys) (dir s : String) (deps : List String) :
    (mkProcessSample fs dir s deps).name = sampleUnitName s := by
  unfold mkProcessSample
  show (applyCheckpoint _ _ _).name = _
  rw [applyCheckpoint_name]

/-- What the replicate loop does to its accumulator, in closed form. -/
theorem replicate_fold (fs : FileSys) (dir : String) :
    ∀ (keys : List String) (st : BuildState) (sdeps sreps : List String),
      keys.foldl (replicateStep fs dir) (st, sdeps, sreps) =
        (⟨st.alignLane ++ keys.map (mkRunBwa fs dir),
          st.processLane ++ keys.map (mkProcessLane fs dir),
          st.processSample, st.cohortDeps, st.cohortVariants⟩,
         sdeps ++ keys.map laneUnitName,
         sreps ++ keys.map laneRecalibratedBam) := by
  intro keys
  induction keys with
  | nil => intro st sdeps sreps; simp
  | cons k ks ih =>
    intro st sdeps sreps
    simp only [List.foldl_cons, replicateStep, List.map_cons]
    rw [ih]
    simp

/-- What the sample loop does to the build state, in closed form. -/
theorem sample_fold (fs : FileSys) (dir : String) :
    ∀ (l : List Sample) (st : BuildState),
      l.foldl (sampleStep fs dir) st =
        ⟨st.alignLane ++ l.flatMap (fun s => (samplePairs s).map (fun p => mkRunBwa fs dir p.2)),
         st.processLane ++ l.flatMap (fun s => (samplePairs s).map (fun p => mkProcessLane fs dir p.2)),
         st.processSample ++ l.map (fun s =>
           mkProcessSample fs dir s.name ((sortKeys s.replicate_keys).map laneUnitName)),
         st.cohortDeps ++ l.map (fun s => sampleUnitName s.name),
         st.cohortVariants ++ l.map (fun s => sampleGvcfVcf s.name)⟩ := by
  intro l
  induction l with
  | nil => intro st; simp
  | cons s ss ih =>
    intro st
    simp only [List.foldl_cons]
    rw [show sampleStep fs dir st s =
        ⟨st.alignLane ++ (sortKeys s.replicate_keys).map (mkRunBwa fs dir),
         st.processLane ++ (sortKeys s.replicate_keys).map (mkProcessLane fs dir),
         st.processSample ++ [mkProcessSample fs dir s.name
           ((sortKeys s.replicate_keys).map laneUnitName)],
         st.cohortDeps ++ [sampleUnitName s.name],
         st.cohortVariants ++ [sampleGvcfVcf s.name]⟩ from by
      unfold sampleStep
      rw [replicate_fold]
      simp [mkProcessSample_name]]
    rw [ih]
    simp [samplePairs, List.map_map, Function.comp]

theorem alignLane_eq (fs : FileSys) (dir cn : String) (samples : List Sample) :
    (runVariantCallingGATK fs dir cn samples).alignLane =
      (replicatePairs samples).map (fun p => mkRunBwa fs dir p.2) := by
  unfold runVariantCallingGATK replicatePairs
  rw [sample_fold]
  simp [List.map_flatMap]

theorem processLane_eq (fs : FileSys) (dir cn : String) (samples : List Sample) :
    (runVariantCallingGATK fs dir cn samples).processLane =
      (replicatePairs samples).map (fun p => mkProcessLane fs dir p.2) := by
  unfold runVariantCallingGATK replicatePairs
  rw [sample_fold]
  simp [List.map_flatMap]

theorem processSample_eq (fs : FileSys) (dir cn : String) (samples : List Sample) :
    (runVariantCallingGATK fs dir cn samples).processSample =
      (sortSamples samples).map (fun s =>
        mkProcessSample fs dir s.name ((sortKeys s.replicate_keys).map laneUnitName)) := by
  unfold runVariantCallingGATK
  rw [sample_fold]
  simp

theorem processCohort_eq (fs : FileSys) (dir cn : String) (samples : List Sample) :
    (runVariantCallingGATK fs dir cn samples).processCohort =
      [{ name := cohortUnitName cn,
         dependencies := (sortSamples samples).map (fun s => sampleUnitName s.name) }] := by
  unfold runVariantCallingGATK
  rw [sample_fold]
  simp

theorem string_append_assoc (a b c : String) : a ++ b ++ c = a ++ (b ++ c) := by
  apply String.ext
  simp only [String.data_append, List.append_assoc]

/-- The align-lane terminal artifact is the unit name followed by
`.bam.md5` (source line 886 versus line 909). -/
theorem alignedMd5_eq_name (k : String) :
    alignedMd5 k = runBwaName k ++ ".bam.md5" := by
  unfold alignedMd5 runBwaName
  rw [string_append_assoc]

theorem mkRunBwa_dependencies (fs : FileSys) (dir k : String) :
    (mkRunBwa fs dir k).dependencies = [] := by
  unfold mkRunBwa; rw [applyCheckpoint_dependencies]

theorem mkProcessLane_dependencies (fs : FileSys) (dir k : String) :
    (mkProcessLane fs dir k).dependencies = [runBwaName k] := by
  unfold mkProcessLane
  show (applyCheckpoint _ _ _).dependencies ++ [runBwaName k] = _
  rw [applyCheckpoint_dependencies]
  rfl

theorem mkProcessSample_dependencies (fs : FileSys) (dir s : String)
    (deps : List String) :
    (mkProcessSample fs dir s deps).dependencies = deps := by
  unfold mkProcessSample
  show (applyCheckpoint _ _ _).dependencies ++ deps = _
  rw [applyCheckpoint_dependencies]
  rfl

theorem mkRunBwa_submit (fs : FileSys) (dir k : String) :
    (mkRunBwa fs dir k).submit = false ↔
      ArtifactPresent fs (joinPath dir (alignedMd5 k)) := by
  rw [← existsNonEmpty_iff]
  unfold mkRunBwa
  rw [applyCheckpoint_submit]
  cases h : existsNonEmpty fs (joinPath dir (alignedMd5 k)) <;> simp [h]

theorem mkProcessLane_submit (fs : FileSys) (dir k : String) :
    (mkProcessLane fs dir k).submit = false ↔
      ArtifactPresent fs (joinPath dir (laneMetrics k)) := by
  rw [← existsNonEmpty_iff]
  unfold mkProcessLane
  show (applyCheckpoint _ _ _).submit = false ↔ _
  rw [applyCheckpoint_submit]
  cases h : existsNonEmpty fs (joinPath dir (laneMetrics k)) <;> simp [h]

theorem mkProcessSample_submit (fs : FileSys) (dir s : String) (deps : List String) :
    (mkProcessSample fs dir s deps).submit = false ↔
      ArtifactPresent fs (joinPath dir (sampleGvcfIdx s)) := by
  rw [← existsNonEmpty_iff]
  unfold mkProcessSample
  show (applyCheckpoint _ _ _).submit = false ↔ _
  rw [applyCheckpoint_submit]
  cases h : existsNonEmpty fs (joinPath dir (sampleGvcfIdx s)) <;> simp [h]

/-- C1: For every Work Unit built by `VariantCallingGATK.run()`, the submit
flag is false if and only if the unit's designated terminal artifact path
(the aligned MD5 for the align-lane unit, the alignment summary metrics for
the process-lane unit, the raw-variants GVCF index for the process-sample
unit) exists with size greater than zero at graph-construction time; if the
path is missing or has zero length, the submit flag is true. -/
theorem claim_C1_checkpoint_submit (fs : FileSys) (dir cn : String)
    (samples : List Sample) :
    (∀ u ∈ (runVariantCallingGATK fs dir cn samples).alignLane,
      (u.submit = false ↔
        ArtifactPresent fs (joinPath dir (u.name ++ ".bam.md5"))))
    ∧ (∀ u ∈ (runVariantCallingGATK fs dir cn samples).processLane,
      (u.submit = false ↔
        ArtifactPresent fs (joinPath dir (u.name ++ "_alignment_summary_metrics.csv"))))
    ∧ (∀ u ∈ (runVariantCallingGATK fs dir cn samples).processSample,
      (u.submit = false ↔
        ArtifactPresent fs (joinPath dir (u.name ++ "_raw_variants_gvcf.vcf.idx")))) := by
  refine ⟨?_, ?_, ?_⟩
  · intro u hu
    rw [alignLane_eq] at hu
    obtain ⟨p, _, rfl⟩ := List.mem_map.mp hu
    rw [mkRunBwa_name, ← alignedMd5_eq_name]
    exact mkRunBwa_submit fs dir p.2
  · intro u hu
    rw [processLane_eq] at hu
    obtain ⟨p, _, rfl⟩ := List.mem_map.mp hu
    rw [mkProcessLane_name]
    exact mkProcessLane_submit fs dir p.2
  · intro u hu
    rw [processSample_eq] at hu
    obtain ⟨s, _, rfl⟩ := List.mem_map.mp hu
    rw [mkProcessSample_name]
    exact mkProcessSample_submit fs dir s.name _

theorem claim_C1_witness :
    (mkRunBwa c1fs "gd" "L1") ∈ (runVariantCallingGATK c1fs "gd" "coh" c1samples).alignLane
    ∧ ((mkRunBwa c1fs "gd" "L1").submit = false ↔
        ArtifactPresent c1fs (joinPath "gd" ((mkRunBwa c1fs "gd" "L1").name ++ ".bam.md5"))) :=
  ⟨by decide, (claim_C1_checkpoint_submit c1fs "gd" "coh" c1samples).1 _ (by decide)⟩

/-- C4: The dependency lists built by `VariantCallingGATK.run()` are
independent of which artifacts exist on the file system at graph-construction
time: two runs over identical sample input that differ only in the artifact
state produce every unit with an identical (name, dependency-name list); in
particular a Checkpoint Policy skip on an upstream unit never removes that
unit from any downstream unit's dependency list. -/
theorem claim_C4_dependencies_fs_independent (fs₁ fs₂ : FileSys)
    (dir cn : String) (samples : List Sample) :
    ((runVariantCallingGATK fs₁ dir cn samples).alignLane.map
        (fun u => (u.name, u.dependencies)) =
      (runVariantCallingGATK fs₂ dir cn samples).alignLane.map
        (fun u => (u.name, u.dependencies)))
    ∧ ((runVariantCallingGATK fs₁ dir cn samples).processLane.map
        (fun u => (u.name, u.dependencies)) =
      (runVariantCallingGATK fs₂ dir cn samples).processLane.map
        (fun u => (u.name, u.dependencies)))
    ∧ ((runVariantCallingGATK fs₁ dir cn samples).processSample.map
        (fun u => (u.name, u.dependencies)) =
      (runVariantCallingGATK fs₂ dir cn samples).processSample.map
        (fun u => (u.name, u.dependencies)))
    ∧ ((runVariantCallingGATK fs₁ dir cn samples).processCohort.map
        (fun u => (u.name, u.dependencies)) =
      (runVariantCallingGATK fs₂ dir cn samples).processCohort.map
        (fun u => (u.name, u.dependencies))) := by
  refine ⟨?_, ?_, ?_, ?_⟩
  · rw [alignLane_eq, alignLane_eq]
    simp [List.map_map, Function.comp, mkRunBwa_name, mkRunBwa_dependencies]
  · rw [processLane_eq, processLane_eq]
    simp [List.map_map, Function.comp, mkProcessLane_name, mkProcessLane_dependencies]
  · rw [processSample_eq, processSample_eq]
    simp [List.map_map, Function.comp, mkProcessSample_name, mkProcessSample_dependencies]
  · rw [processCohort_eq, processCohort_eq]

/-! ## Sorting facts -/

theorem sortSamples_perm (l : List Sample) : List.Perm (sortSamples l) l :=
  List.perm_insertionSort _ l

theorem sortSamples_sorted (l : List Sample) :
    List.Sorted sampleLe (sortSamples l) :=
  List.sorted_insertionSort _ l

theorem sortKeys_perm (l : List String) : List.Perm (sortKeys l) l :=
  List.perm_insertionSort _ l

theorem sortKeys_sorted (l : List String) :
    List.Sorted (fun a b : String => a ≤ b) (sortKeys l) :=
  List.sorted_insertionSort _ l

/-- With pairwise-distinct sample names the sorted sample list is strictly
increasing in the name. -/
theorem sortSamples_pairwise_lt {l : List Sample}
    (hn : (l.map Sample.name).Nodup) :
    (sortSamples l).Pairwise sampleKeyLt := by
  have hs : (sortSamples l).Pairwise sampleLe := sortSamples_sorted l
  have hmap : List.Perm ((sortSamples l).map Sample.name) (l.map Sample.name) :=
    (sortSamples_perm l).map Sample.name
  have hn' : ((sortSamples l).map Sample.name).Nodup := hmap.nodup_iff.mpr hn
  have hne : (sortSamples l).Pairwise (fun a b => a.name ≠ b.name) :=
    List.pairwise_map.mp hn'
  exact (hs.and hne).imp fun h => lt_of_le_of_ne h.1 h.2

/-- Distinct keys sort into a strictly increasing list. -/
theorem sortKeys_pairwise_lt {l : List String} (hn : l.Nodup) :
    (sortKeys l).Pairwise (fun a b : String => a < b) := by
  have hs := sortKeys_sorted l
  have hn' : (sortKeys l).Nodup := (sortKeys_perm l).nodup_iff.mpr hn
  have hne : (sortKeys l).Pairwise (fun a b : String => a ≠ b) := hn'
  exact (hs.and hne).imp fun h => lt_of_le_of_ne h.1 h.2

theorem samplePairs_fst {s : Sample} {p : String × String}
    (hp : p ∈ samplePairs s) : p.1 = s.name := by
  unfold samplePairs at hp
  obtain ⟨k, _, rfl⟩ := List.mem_map.mp hp
  rfl

/-- With distinct sample names and distinct per-sample replicate keys, the
visit order of (sample name, replicate key) pairs is strictly
lexicographic. -/
theorem replicatePairs_pairwise (samples : List Sample)
    (hn : (samples.map Sample.name).Nodup)
    (hk : ∀ s ∈ samples, s.replicate_keys.Nodup) :
    (replicatePairs samples).Pairwise pairLexLt := by
  unfold replicatePairs
  rw [List.pairwise_flatMap]
  constructor
  · intro s hs
    unfold samplePairs
    rw [List.pairwise_map]
    have hkey : s.replicate_keys.Nodup :=
      hk s ((sortSamples_perm samples).mem_iff.mp hs)
    exact (sortKeys_pairwise_lt hkey).imp fun h => Or.inr ⟨rfl, h⟩
  · exact (sortSamples_pairwise_lt hn).imp fun hab x hx y hy =>
      Or.inl (by rw [samplePairs_fst hx, samplePairs_fst hy]; exact hab)

/-! ## Claim C2 -/

/-- C2 counterexample: with two samples that share the name `s` (nothing in
`run()` forbids this), the replicate-tier stage lists the unit of pair
(s, b) before the unit of pair (s, a): the claimed strictly lexicographic
order fails for this input. -/
theorem claim_C2_counterexample :
    (runVariantCallingGATK noFs "gd" "c" c2samples).alignLane =
      [mkRunBwa noFs "gd" "b", mkRunBwa noFs "gd" "a"]
    ∧ ¬ (replicatePairs c2samples).Pairwise pairLexLt :=
  ⟨by decide, by decide⟩

/-- C2 amended: provided the sample names are pairwise distinct and each
sample's replicate keys are distinct (they are keys of a Python dict), the
two replicate-tier stages list their units exactly along the
(sample name, replicate key) pair sequence, and that sequence is strictly
lexicographic, for every insertion order of samples and keys. -/
theorem claim_C2_strict_order (fs : FileSys) (dir cn : String)
    (samples : List Sample)
    (hn : (samples.map Sample.name).Nodup)
    (hk : ∀ s ∈ samples, s.replicate_keys.Nodup) :
    (runVariantCallingGATK fs dir cn samples).alignLane =
      (replicatePairs samples).map (fun p => mkRunBwa fs dir p.2)
    ∧ (runVariantCallingGATK fs dir cn samples).processLane =
      (replicatePairs samples).map (fun p => mkProcessLane fs dir p.2)
    ∧ (replicatePairs samples).Pairwise pairLexLt :=
  ⟨alignLane_eq fs dir cn samples, processLane_eq fs dir cn samples,
   replicatePairs_pairwise samples hn hk⟩

theorem claim_C2_witness :
    (c2wsamples.map Sample.name).Nodup
    ∧ (∀ s ∈ c2wsamples, s.replicate_keys.Nodup)
    ∧ (replicatePairs c2wsamples).Pairwise pairLexLt :=
  ⟨by decide, by decide,
   (claim_C2_strict_order noFs "gd" "c" c2wsamples (by decide) (by decide)).2.2⟩

/-! ## Claim C3 -/

theorem string_append_left_cancel {p a b : String} (h : p ++ a = p ++ b) :
    a = b := by
  have hd := congrArg String.data h
  simp only [String.data_append] at hd
  exact String.ext (List.append_cancel_left hd)

theorem sampleUnitName_injective : Function.Injective sampleUnitName := by
  intro a b h
  unfold sampleUnitName at h
  exact string_append_left_cancel h

/-- C3 counterexample: with two samples that share the name `s`, the cohort
unit's dependency list contains the shared sample-tier unit name twice. -/
theorem claim_C3_counterexample :
    ¬ ((runVariantCallingGATK noFs "gd" "c" c3samples).processCohort.flatMap
        Executable.dependencies).Nodup := by
  decide

/-- C3 amended: provided the sample names are pairwise distinct, the cohort
unit's dependency-name list is exactly the name list of the sample-tier
stage, without duplicates or omissions, and it is the same for every
processing order of the samples. -/
theorem claim_C3_cohort_dependencies (fs : FileSys) (dir cn : String)
    (samples : List Sample) (hn : (samples.map Sample.name).Nodup) :
    (runVariantCallingGATK fs dir cn samples).processCohort =
      [{ name := cohortUnitName cn,
         dependencies :=
           (runVariantCallingGATK fs dir cn samples).processSample.map
             Executable.name }]
    ∧ ((runVariantCallingGATK fs dir cn samples).processCohort.flatMap
        Executable.dependencies).Nodup
    ∧ ∀ samples', List.Perm samples samples' →
        (runVariantCallingGATK fs dir cn samples).processCohort =
          (runVariantCallingGATK fs dir cn samples').processCohort := by
  have hnames : ((sortSamples samples).map Sample.name).Nodup :=
    ((sortSamples_perm samples).map Sample.name).nodup_iff.mpr hn
  refine ⟨?_, ?_, ?_⟩
  · rw [processCohort_eq, processSample_eq]
    simp [List.map_map, Function.comp, mkProcessSample_name]
  · rw [processCohort_eq]
    show ((sortSamples samples).map (fun s : Sample => sampleUnitName s.name) ++ []).Nodup
    rw [List.append_nil]
    show (List.map (sampleUnitName ∘ Sample.name) (sortSamples samples)).Nodup
    rw [← List.map_map]
    exact hnames.map sampleUnitName_injective
  · intro samples' hp
    have hn' : (samples'.map Sample.name).Nodup := ((hp.map Sample.name).nodup_iff).mp hn
    have hperm : List.Perm (sortSamples samples) (sortSamples samples') :=
      ((sortSamples_perm samples).trans hp).trans (sortSamples_perm samples').symm
    have heq : sortSamples samples = sortSamples samples' :=
      List.eq_of_perm_of_sorted hperm (sortSamples_pairwise_lt hn)
        (sortSamples_pairwise_lt hn')
    rw [processCohort_eq, processCohort_eq, heq]

theorem claim_C3_witness :
    (c3wsamples.map Sample.name).Nodup
    ∧ ((runVariantCallingGATK noFs "gd" "c" c3wsamples).processCohort.flatMap
        Executable.dependencies).Nodup :=
  ⟨by decide, (claim_C3_cohort_dependencies noFs "gd" "c" c3wsamples (by decide)).2.1⟩

/-! ## Claim C5 -/

/-- C5: a sample whose replicate set is empty contributes zero units to each
replicate-tier stage - the stages decompose sample by sample and the empty
sample's contribution is the empty list - and the sample-tier unit built for
it has an empty dependency list: no empty dependency is silently
inserted. -/
theorem claim_C5_empty_replicates (fs : FileSys) (dir cn : String)
    (samples : List Sample) (s : Sample) (hs : s ∈ samples)
    (hk : s.replicate_keys = []) :
    (runVariantCallingGATK fs dir cn samples).alignLane =
      (sortSamples samples).flatMap
        (fun t => (sortKeys t.replicate_keys).map (mkRunBwa fs dir))
    ∧ (sortKeys s.replicate_keys).map (mkRunBwa fs dir) = []
    ∧ (runVariantCallingGATK fs dir cn samples).processLane =
      (sortSamples samples).flatMap
        (fun t => (sortKeys t.replicate_keys).map (mkProcessLane fs dir))
    ∧ (sortKeys s.replicate_keys).map (mkProcessLane fs dir) = []
    ∧ mkProcessSample fs dir s.name ((sortKeys s.replicate_keys).map laneUnitName)
        ∈ (runVariantCallingGATK fs dir cn samples).processSample
    ∧ (mkProcessSample fs dir s.name
        ((sortKeys s.replicate_keys).map laneUnitName)).dependencies = [] := by
  refine ⟨?_, ?_, ?_, ?_, ?_, ?_⟩
  · rw [alignLane_eq]
    unfold replicatePairs samplePairs
    rw [List.map_flatMap]
    simp only [List.map_map]
    rfl
  · rw [hk]; rfl
  · rw [processLane_eq]
    unfold replicatePairs samplePairs
    rw [List.map_flatMap]
    simp only [List.map_map]
    rfl
  · rw [hk]; rfl
  · rw [processSample_eq]
    exact List.mem_map.mpr ⟨s, (sortSamples_perm samples).mem_iff.mpr hs, rfl⟩
  · rw [mkProcessSample_dependencies, hk]; rfl

theorem claim_C5_witness :
    (⟨"E", []⟩ : Sample) ∈ c5samples
    ∧ (mkProcessSample noFs "gd" (Sample.mk "E" []).name
        ((sortKeys (Sample.mk "E" []).replicate_keys).map laneUnitName)).dependencies = [] :=
  ⟨by decide,
   (claim_C5_empty_replicates noFs "gd" "c" c5samples ⟨"E", []⟩ (by decide) rfl).2.2.2.2.2⟩

/-! ## Name disjointness across tiers -/

theorem list_append_take_ne {l₁ l₂ x y : List Char} (n : Nat)
    (h₁ : n ≤ l₁.length) (h₂ : n ≤ l₂.length)
    (hne : l₁.take n ≠ l₂.take n) : l₁ ++ x ≠ l₂ ++ y := by
  intro h
  apply hne
  have h' := congrArg (List.take n) h
  rwa [List.take_append_of_le_length h₁, List.take_append_of_le_length h₂] at h'

/-- Two strings with different prefixes stay different under any suffixes. -/
theorem string_append_ne (p q a b : String) (n : Nat)
    (h₁ : n ≤ p.data.length) (h₂ : n ≤ q.data.length)
    (hne : p.data.take n ≠ q.data.take n) : p ++ a ≠ q ++ b := by
  intro h
  have hd : p.data ++ a.data = q.data ++ b.data := by
    have := congrArg String.data h
    simpa only [String.data_append] using this
  exact list_append_take_ne n h₁ h₂ hne hd

theorem runBwaName_ne_laneUnitName (k k' : String) :
    runBwaName k ≠ laneUnitName k' :=
  string_append_ne (alignLaneStage ++ "_") (processLaneStage ++ "_") k k' 17
    (by decide) (by decide) (by decide)

theorem runBwaName_ne_sampleUnitName (k s : String) :
    runBwaName k ≠ sampleUnitName s :=
  string_append_ne (alignLaneStage ++ "_") (processSampleStage ++ "_") k s 17
    (by decide) (by decide) (by decide)

theorem runBwaName_ne_cohortUnitName (k c : String) :
    runBwaName k ≠ cohortUnitName c :=
  string_append_ne (alignLaneStage ++ "_") (processCohortStage ++ "_") k c 17
    (by decide) (by decide) (by decide)

theorem laneUnitName_ne_sampleUnitName (k s : String) :
    laneUnitName k ≠ sampleUnitName s :=
  string_append_ne (processLaneStage ++ "_") (processSampleStage ++ "_") k s 25
    (by decide) (by decide) (by decide)

theorem laneUnitName_ne_cohortUnitName (k c : String) :
    laneUnitName k ≠ cohortUnitName c :=
  string_append_ne (processLaneStage ++ "_") (processCohortStage ++ "_") k c 25
    (by decide) (by decide) (by decide)

theorem sampleUnitName_ne_cohortUnitName (s c : String) :
    sampleUnitName s ≠ cohortUnitName c :=
  string_append_ne (processSampleStage ++ "_") (processCohortStage ++ "_") s c 25
    (by decide) (by decide) (by decide)

theorem alignLane_names (fs : FileSys) (dir cn : String) (samples : List Sample) :
    (runVariantCallingGATK fs dir cn samples).alignLane.map Executable.name =
      (replicatePairs samples).map (fun p => runBwaName p.2) := by
  rw [alignLane_eq]
  simp [List.map_map, Function.comp, mkRunBwa_name]

theorem processLane_names (fs : FileSys) (dir cn : String) (samples : List Sample) :
    (runVariantCallingGATK fs dir cn samples).processLane.map Executable.name =
      (replicatePairs samples).map (fun p => laneUnitName p.2) := by
  rw [processLane_eq]
  simp [List.map_map, Function.comp, mkProcessLane_name]

theorem processSample_names (fs : FileSys) (dir cn : String) (samples : List Sample) :
    (runVariantCallingGATK fs dir cn samples).processSample.map Executable.name =
      (sortSamples samples).map (fun s => sampleUnitName s.name) := by
  rw [processSample_eq]
  simp [List.map_map, Function.comp, mkProcessSample_name]

/-! ## Claim C6 -/

/-- C6: the dependency graph is acyclic by construction.  Align-lane units
have no dependencies; every dependency name of a process-lane unit is the
name of an align-lane unit, every dependency name of a process-sample unit
the name of a process-lane unit, and every dependency name of the cohort
unit the name of a process-sample unit; and the name lists of the four tiers
are pairwise disjoint, so no edge ever points into the same or a later-built
tier. -/
theorem claim_C6_acyclic_by_construction (fs : FileSys) (dir cn : String)
    (samples : List Sample) :
    (∀ u ∈ (runVariantCallingGATK fs dir cn samples).alignLane,
      u.dependencies = [])
    ∧ (∀ u ∈ (runVariantCallingGATK fs dir cn samples).processLane,
        ∀ d ∈ u.dependencies,
          d ∈ (runVariantCallingGATK fs dir cn samples).alignLane.map Executable.name)
    ∧ (∀ u ∈ (runVariantCallingGATK fs dir cn samples).processSample,
        ∀ d ∈ u.dependencies,
          d ∈ (runVariantCallingGATK fs dir cn samples).processLane.map Executable.name)
    ∧ (∀ u ∈ (runVariantCallingGATK fs dir cn samples).processCohort,
        ∀ d ∈ u.dependencies,
          d ∈ (runVariantCallingGATK fs dir cn samples).processSample.map Executable.name)
    ∧ List.Disjoint
        ((runVariantCallingGATK fs dir cn samples).alignLane.map Executable.name)
        ((runVariantCallingGATK fs dir cn samples).processLane.map Executable.name)
    ∧ List.Disjoint
        ((runVariantCallingGATK fs dir cn samples).alignLane.map Executable.name)
        ((runVariantCallingGATK fs dir cn samples).processSample.map Executable.name)
    ∧ List.Disjoint
        ((runVariantCallingGATK fs dir cn samples).alignLane.map Executable.name)
        ((runVariantCallingGATK fs dir cn samples).processCohort.map Executable.name)
    ∧ List.Disjoint
        ((runVariantCallingGATK fs dir cn samples).processLane.map Executable.name)
        ((runVariantCallingGATK fs dir cn samples).processSample.map Executable.name)
    ∧ List.Disjoint
        ((runVariantCallingGATK fs dir cn samples).processLane.map Executable.name)
        ((runVariantCallingGATK fs dir cn samples).processCohort.map Executable.name)
    ∧ List.Disjoint
        ((runVariantCallingGATK fs dir cn samples).processSample.map Executable.name)
        ((runVariantCallingGATK fs dir cn samples).processCohort.map Executable.name) := by
  refine ⟨?_, ?_, ?_, ?_, ?_, ?_, ?_, ?_, ?_, ?_⟩
  · intro u hu
    rw [alignLane_eq] at hu
    obtain ⟨p, _, rfl⟩ := List.mem_map.mp hu
    exact mkRunBwa_dependencies fs dir p.2
  · intro u hu d hd
    rw [processLane_eq] at hu
    obtain ⟨p, hp, rfl⟩ := List.mem_map.mp hu
    rw [mkProcessLane_dependencies] at hd
    rw [List.mem_singleton] at hd
    subst hd
    rw [alignLane_names]
    exact List.mem_map.mpr ⟨p, hp, rfl⟩
  · intro u hu d hd
    rw [processSample_eq] at hu
    obtain ⟨s, hs, rfl⟩ := List.mem_map.mp hu
    rw [mkProcessSample_dependencies] at hd
    obtain ⟨k, hk, rfl⟩ := List.mem_map.mp hd
    rw [processLane_names]
    refine List.mem_map.mpr ⟨(s.name, k), ?_, rfl⟩
    unfold replicatePairs
    exact List.mem_flatMap.mpr ⟨s, hs, List.mem_map.mpr ⟨k, hk, rfl⟩⟩
  · intro u hu d hd
    rw [processCohort_eq] at hu
    rw [List.mem_singleton] at hu
    subst hu
    obtain ⟨s, hs, rfl⟩ := List.mem_map.mp hd
    rw [processSample_names]
    exact List.mem_map.mpr ⟨s, hs, rfl⟩
  · intro a ha hb
    rw [alignLane_names] at ha
    rw [processLane_names] at hb
    obtain ⟨p, _, rfl⟩ := List.mem_map.mp ha
    obtain ⟨q, _, he⟩ := List.mem_map.mp hb
    exact runBwaName_ne_laneUnitName p.2 q.2 he.symm
  · intro a ha hb
    rw [alignLane_names] at ha
    rw [processSample_names] at hb
    obtain ⟨p, _, rfl⟩ := List.mem_map.mp ha
    obtain ⟨s, _, he⟩ := List.mem_map.mp hb
    exact runBwaName_ne_sampleUnitName p.2 s.name he.symm
  · intro a ha hb
    rw [alignLane_names] at ha
    rw [processCohort_eq] at hb
    obtain ⟨p, _, rfl⟩ := List.mem_map.mp ha
    obtain ⟨u, hu, he⟩ := List.mem_map.mp hb
    rw [List.mem_singleton] at hu
    subst hu
    exact runBwaName_ne_cohortUnitName p.2 cn he.symm
  · intro a ha hb
    rw [processLane_names] at ha
    rw [processSample_names] at hb
    obtain ⟨p, _, rfl⟩ := List.mem_map.mp ha
    obtain ⟨s, _, he⟩ := List.mem_map.mp hb
    exact laneUnitName_ne_sampleUnitName p.2 s.name he.symm
  · intro a ha hb
    rw [processLane_names] at ha
    rw [processCohort_eq] at hb
    obtain ⟨p, _, rfl⟩ := List.mem_map.mp ha
    obtain ⟨u, hu, he⟩ := List.mem_map.mp hb
    rw [List.mem_singleton] at hu
    subst hu
    exact laneUnitName_ne_cohortUnitName p.2 cn he.symm
  · intro a ha hb
    rw [processSample_names] at ha
    rw [processCohort_eq] at hb
    obtain ⟨s, _, rfl⟩ := List.mem_map.mp ha
    obtain ⟨u, hu, he⟩ := List.mem_map.mp hb
    rw [List.mem_singleton] at hu
    subst hu
    exact sampleUnitName_ne_cohortUnitName s.name cn he.symm

theorem claim_C6_witness :
    mkProcessLane noFs "gd" "L1" ∈ (runVariantCallingGATK noFs "gd" "c" c6samples).processLane
    ∧ runBwaName "L1" ∈ (mkProcessLane noFs "gd" "L1").dependencies
    ∧ runBwaName "L1" ∈
        (runVariantCallingGATK noFs "gd" "c" c6samples).alignLane.map Executable.name :=
  ⟨by decide, by decide,
   (claim_C6_acyclic_by_construction noFs "gd" "c" c6samples).2.1
     (mkProcessLane noFs "gd" "L1") (by decide) (runBwaName "L1") (by decide)⟩

/-! ## Claim C7 -/

theorem existsNonEmpty_congr {fs fs' : FileSys} {p : String}
    (h : fs p = fs' p) : existsNonEmpty fs p = existsNonEmpty fs' p := by
  unfold existsNonEmpty pathExists getSize
  rw [h]

theorem applyCheckpoint_congr {fs fs' : FileSys} {p : String}
    (h : fs p = fs' p) (e : Executable) :
    applyCheckpoint fs p e = applyCheckpoint fs' p e := by
  unfold applyCheckpoint
  rw [existsNonEmpty_congr h]

theorem mkRunBwa_congr {fs fs' : FileSys} {dir k : String}
    (h : fs (joinPath dir (alignedMd5 k)) = fs' (joinPath dir (alignedMd5 k))) :
    mkRunBwa fs dir k = mkRunBwa fs' dir k := by
  unfold mkRunBwa
  rw [applyCheckpoint_congr h]

theorem mkProcessLane_congr {fs fs' : FileSys} {dir k : String}
    (h : fs (joinPath dir (laneMetrics k)) = fs' (joinPath dir (laneMetrics k))) :
    mkProcessLane fs dir k = mkProcessLane fs' dir k := by
  unfold mkProcessLane
  rw [applyCheckpoint_congr h]

theorem mkProcessSample_congr {fs fs' : FileSys} {dir s : String}
    (deps : List String)
    (h : fs (joinPath dir (sampleGvcfIdx s)) = fs' (joinPath dir (sampleGvcfIdx s))) :
    mkProcessSample fs dir s deps = mkProcessSample fs' dir s deps := by
  unfold mkProcessSample
  rw [applyCheckpoint_congr h]

theorem runVC_eq (fs : FileSys) (dir cn : String) (samples : List Sample) :
    runVariantCallingGATK fs dir cn samples =
      ⟨(replicatePairs samples).map (fun p => mkRunBwa fs dir p.2),
       (replicatePairs samples).map (fun p => mkProcessLane fs dir p.2),
       (sortSamples samples).map (fun s =>
         mkProcessSample fs dir s.name ((sortKeys s.replicate_keys).map laneUnitName)),
       [{ name := cohortUnitName cn,
          dependencies := (sortSamples samples).map (fun s => sampleUnitName s.name) }]⟩ := by
  refine VCGraph.ext ?_ ?_ ?_ ?_
  · exact alignLane_eq fs dir cn samples
  · exact processLane_eq fs dir cn samples
  · exact processSample_eq fs dir cn samples
  · exact processCohort_eq fs dir cn samples

/-- C7 counterexample: the execution of the bowtie2 Work Unit depends on the
presence of its aligned SAM at execution time - two environments identical
except for that artifact make `run_bowtie2` skip entirely in one case and
run the aligner in the other.  The checkpoint-style test on lines 206-208 of
bowtie2.py is therefore re-evaluated during execution of the unit, contrary
to the claim. -/
theorem claim_C7_counterexample :
    runBowtie2 c7envPresent c7r = (Except.ok (), [])
    ∧ runBowtie2 c7envAbsent c7r =
        (Except.ok (), ["bowtie2 -U x.fastq > tmp/all_fastq_files.sam"])
    ∧ (∀ p, p ≠ c7r.aligned_sam → c7envPresent.fs p = c7envAbsent.fs p)
    ∧ c7envPresent.exitCode = c7envAbsent.exitCode
    ∧ c7envPresent.samReadGroupLines = c7envAbsent.samReadGroupLines := by
  refine ⟨by decide, by decide, ?_, rfl, rfl⟩
  intro p hp
  show (if p = "out.sam" then some 4 else none) = none
  exact if_neg hp

/-- C7 amended: within `VariantCallingGATK.run` the Checkpoint Policy test is
evaluated once per checkpointed Work Unit at graph-construction time - the
built graph depends on the file system only through the designated terminal
artifact paths, one per unit; but the checkpoint-style test of the bowtie2
runnable (bowtie2.py lines 206-208) is evaluated again at execution time:
whenever the aligned SAM exists non-empty then, the unit's execution returns
immediately without spawning any command. -/
theorem claim_C7_construction_time_only (fs fs' : FileSys) (dir cn : String)
    (samples : List Sample)
    (h : ∀ p ∈ designatedPaths dir samples, fs p = fs' p) :
    runVariantCallingGATK fs dir cn samples = runVariantCallingGATK fs' dir cn samples
    ∧ ∀ (env : BowtieEnv) (r : BowtieRunnable),
        existsNonEmpty env.fs r.aligned_sam = true →
          runBowtie2 env r = (Except.ok (), []) := by
  constructor
  · rw [runVC_eq, runVC_eq]
    simp only [VCGraph.mk.injEq]
    refine ⟨?_, ?_, ?_, trivial⟩
    · refine List.map_congr_left fun p hp => mkRunBwa_congr (h _ ?_)
      unfold designatedPaths
      refine List.mem_append.mpr (Or.inl (List.mem_append.mpr (Or.inl ?_)))
      exact List.mem_map.mpr ⟨p, hp, rfl⟩
    · refine List.map_congr_left fun p hp => mkProcessLane_congr (h _ ?_)
      unfold designatedPaths
      refine List.mem_append.mpr (Or.inl (List.mem_append.mpr (Or.inr ?_)))
      exact List.mem_map.mpr ⟨p, hp, rfl⟩
    · refine List.map_congr_left fun s hs => mkProcessSample_congr _ (h _ ?_)
      unfold designatedPaths
      refine List.mem_append.mpr (Or.inr ?_)
      exact List.mem_map.mpr ⟨s, hs, rfl⟩
  · intro env r hsam
    unfold runBowtie2
    rw [hsam]
    rfl

theorem claim_C7_witness :
    (∀ p ∈ designatedPaths "gd" c1samples, noFs p = c7otherFs p)
    ∧ runVariantCallingGATK noFs "gd" "c" c1samples =
        runVariantCallingGATK c7otherFs "gd" "c" c1samples :=
  ⟨by decide,
   (claim_C7_construction_time_only noFs c7otherFs "gd" "c" c1samples (by decide)).1⟩

/-! ## Claim C9 -/

/-- C9: whenever `run_bowtie2` accumulates more than one SAM file, so the
merge branch of lines 296-314 is taken, evaluating line 302 raises
NameError for `default`, which is unbound in that scope (`bam_file_path` on
line 307 is unbound too); no merge command is spawned - the command log
stays exactly the alignment-phase log - and `run()` propagates the
exception, so it never completes for such inputs. -/
theorem claim_C9_merge_name_error (env : BowtieEnv) (r : BowtieRunnable)
    (sams cmds : List String)
    (h0 : existsNonEmpty env.fs r.aligned_sam = false)
    (h1 : alignmentPhase env r = (Except.ok sams, cmds))
    (h2 : 1 < sams.length) :
    runBowtie2 env r = (Except.error (PyErr.nameError "default"), cmds)
    ∧ runBowtie2Runnable env r = (Except.error (PyErr.nameError "default"), cmds)
    ∧ "default" ∉ runBowtie2Scope
    ∧ "bam_file_path" ∉ runBowtie2Scope := by
  have hmerge : mergeBranch = Except.error (PyErr.nameError "default") := by decide
  have hrb : runBowtie2 env r = (Except.error (PyErr.nameError "default"), cmds) := by
    unfold runBowtie2
    rw [h0]
    simp only [Bool.false_eq_true, if_false, h1]
    rw [if_pos h2, hmerge]
  refine ⟨hrb, ?_, by decide, by decide⟩
  unfold runBowtie2Runnable
  rw [hrb]

theorem claim_C9_witness :
    1 < c9sams.length
    ∧ alignmentPhase c9env c9r = (Except.ok c9sams, c9cmds)
    ∧ runBowtie2 c9env c9r = (Except.error (PyErr.nameError "default"), c9cmds) :=
  ⟨by decide, by decide,
   (claim_C9_merge_name_error c9env c9r c9sams c9cmds (by decide) (by decide)
     (by decide)).1⟩

/-! ## Claim C10 -/

/-- A well-braced template with enough arguments always formats. -/
theorem pyFormatAux_ok (cs : List Char) (args : List String) :
    wellBraced cs = true → placeholderCount cs ≤ args.length →
    ∃ r, pyFormatAux cs args = Except.ok r := by
  induction cs, args using pyFormatAux.induct with
  | case1 args => exact fun _ _ => ⟨[], rfl⟩
  | case2 cs2 =>
    intro _ hc
    exfalso
    simp [placeholderCount] at hc
  | case3 cs2 a rest tail hok ih =>
    intro _ _
    refine ⟨a.data ++ tail, ?_⟩
    rw [pyFormatAux.eq_def]
    simp [hok]
  | case4 cs2 a rest e herr ih =>
    intro hw hc
    have hw2 : wellBraced cs2 = true := by
      rw [wellBraced.eq_def] at hw
      simpa using hw
    have hc2 : placeholderCount cs2 ≤ rest.length := by
      rw [placeholderCount.eq_def] at hc
      simp at hc
      omega
    obtain ⟨r, hr⟩ := ih hw2 hc2
    rw [herr] at hr
    cases hr
  | case5 args c2 cs2 hne =>
    intro hw _
    exfalso
    simp [wellBraced, hne] at hw
  | case6 args =>
    intro hw _
    exfalso
    simp [wellBraced] at hw
  | case7 cs args hne =>
    intro hw _
    exfalso
    rw [wellBraced.eq_def] at hw
    simp [hne] at hw
  | case8 c cs args h1 h2 tail hok ih =>
    intro _ _
    refine ⟨c :: tail, ?_⟩
    rw [pyFormatAux.eq_def]
    simp [h1, h2, hok]
  | case9 c cs args h1 h2 e herr ih =>
    intro hw hc
    have hw2 : wellBraced cs = true := by
      rw [wellBraced.eq_def] at hw
      simpa [h1, h2] using hw
    have hc2 : placeholderCount cs ≤ args.length := by
      rw [placeholderCount.eq_def] at hc
      simpa [h1] using hc
    obtain ⟨r, hr⟩ := ih hw2 hc2
    rw [herr] at hr
    cases hr

theorem pyFormat_ok (t : String) (args : List String)
    (hw : wellBraced t.data = true)
    (hc : placeholderCount t.data ≤ args.length) :
    ∃ r, pyFormat t args = Except.ok r := by
  obtain ⟨r, hr⟩ := pyFormatAux_ok t.data args hw hc
  exact ⟨String.mk r, by unfold pyFormat; rw [hr]⟩

theorem except_bind_ok {e a b : Type} (x : a) (f : a → Except e b) :
    (Except.ok x >>= f) = f x := rfl

theorem except_bind_error {e a b : Type} (u : e) (f : a → Except e b) :
    ((Except.error u : Except e a) >>= f) = Except.error u := rfl

/-- Line 286: building the ExtractIlluminaBarcodes argument list always
raises IndexError at the READ_STRUCTURE argument, whose template is
formatted with no argument; the two arguments before it always format. -/
theorem buildEibArguments_indexError (cfg : EIBConfig) (laneInt : Int)
    (b m : String) :
    buildEibArguments cfg laneInt b m = Except.error PyErr.indexError := by
  unfold buildEibArguments
  obtain ⟨r1, h1⟩ := pyFormat_ok "BASECALLS_DIR=\x7b\x7d"
    [cfg.base_calls_directory] (by decide)
    (by rw [List.length_singleton]; decide)
  rw [h1, except_bind_ok]
  obtain ⟨r2, h2⟩ := pyFormat_ok "LANE=\x7b\x7d" [toString laneInt]
    (by decide) (by rw [List.length_singleton]; decide)
  rw [h2, except_bind_ok]
  have h3 : pyFormat "READ_STRUCTURE=\x7b\x7d" ([] : List String) =
      Except.error PyErr.indexError := by decide
  rw [h3, except_bind_error]

/-- Every lane the loop visits raises some exception: the lane key may fail
`int()`, the read-structure check may raise TypeError, and otherwise the
READ_STRUCTURE formatting raises IndexError. -/
theorem processEIBLane_error (cfg : EIBConfig) (k : String) :
    ∃ e, processEIBLane cfg k = Except.error e := by
  unfold processEIBLane
  cases hint : pyInt k with
  | error e => exact ⟨e, by rw [except_bind_error]⟩
  | ok n =>
    rw [except_bind_ok]
    cases hany : cfg.reads.any (fun rd => rd.number == 1 &&
        rd.cycles != computeBc1Length (lookupLane k cfg.barcode_dict)) with
    | true =>
      refine ⟨PyErr.typeError, ?_⟩
      rw [if_pos rfl]
      rfl
    | false =>
      refine ⟨PyErr.indexError, ?_⟩
      rw [if_neg (by simp)]
      exact buildEibArguments_indexError cfg n _ _

/-- When the first sorted lane key parses as an integer and the
read-structure warning is not triggered, the whole function fails precisely
with the IndexError of line 286. -/
theorem processEIBLane_indexError (cfg : EIBConfig) (k : String) (n : Int)
    (hint : pyInt k = Except.ok n)
    (hany : cfg.reads.any (fun rd => rd.number == 1 &&
      rd.cycles != computeBc1Length (lookupLane k cfg.barcode_dict)) = false) :
    processEIBLane cfg k = Except.error PyErr.indexError := by
  unfold processEIBLane
  rw [hint, except_bind_ok, hany, if_neg (by simp)]
  exact buildEibArguments_indexError cfg n _ _

/-- C10: for every configuration whose barcode annotation sheet yields at
least one lane, `extract_illumina_barcodes` raises an exception and never
completes normally; moreover, whenever the first processed lane key parses
as an integer and the read-cycle warning branch is not taken, the exception
is exactly the IndexError raised while building the ExtractIlluminaBarcodes
argument list, where the READ_STRUCTURE argument is produced by calling
`str.format` with no argument (picard.py line 286). -/
theorem claim_C10_read_structure_format (cfg : EIBConfig)
    (hne : cfg.barcode_dict ≠ []) :
    (∃ e, extractIlluminaBarcodes cfg = Except.error e)
    ∧ ∀ k rest, sortKeys (cfg.barcode_dict.map Prod.fst) = k :: rest →
        ∀ n, pyInt k = Except.ok n →
          cfg.reads.any (fun rd => rd.number == 1 &&
            rd.cycles != computeBc1Length (lookupLane k cfg.barcode_dict)) = false →
          extractIlluminaBarcodes cfg = Except.error PyErr.indexError := by
  constructor
  · have hkeys : sortKeys (cfg.barcode_dict.map Prod.fst) ≠ [] := by
      intro h
      apply hne
      have hlen := (sortKeys_perm (cfg.barcode_dict.map Prod.fst)).length_eq
      rw [h] at hlen
      simp only [List.length_nil, List.length_map] at hlen
      exact List.eq_nil_of_length_eq_zero hlen.symm
    match hk : sortKeys (cfg.barcode_dict.map Prod.fst) with
    | [] => exact absurd hk hkeys
    | k :: rest =>
      obtain ⟨e, he⟩ := processEIBLane_error cfg k
      refine ⟨e, ?_⟩
      unfold extractIlluminaBarcodes
      rw [hk, List.mapM_cons, he]
      rfl
  · intro k rest hk n hint hany
    unfold extractIlluminaBarcodes
    rw [hk, List.mapM_cons, processEIBLane_indexError cfg k n hint hany]
    rfl

theorem claim_C10_witness :
    c10cfg.barcode_dict ≠ []
    ∧ extractIlluminaBarcodes c10cfg = Except.error PyErr.indexError :=
  ⟨by decide,
   (claim_C10_read_structure_format c10cfg (by decide)).2 "1" [] (by decide) 1
     (by decide) (by decide)⟩

/-! ## Claim C8 -/

theorem decodeStrList_encode :
    ∀ (l : List String) (rest : List SerTok),
      decodeStrList l.length (l.map SerTok.str ++ rest) = some (l, rest) := by
  intro l
  induction l with
  | nil => intro rest; rfl
  | cons s ss ih =>
    intro rest
    simp only [List.length_cons, List.map_cons, List.cons_append]
    rw [decodeStrList]
    simp [decodeStr, ih rest, Option.bind]

theorem decodeOptionStr_encode :
    ∀ (o : Option String) (rest : List SerTok),
      decodeOptionStr (encodeOptionStr o ++ rest) = some (o, rest) := by
  intro o rest
  cases o with
  | none => rfl
  | some s => rfl

theorem decodeTask_encode (t : WTask) (rest : List SerTok) :
    decodeTask (encodeTask t ++ rest) = some (t, rest) := by
  unfold decodeTask encodeTask
  simp only [List.cons_append, List.append_assoc, List.nil_append]
  rw [show decodeStr (SerTok.str t.name :: (SerTok.str t.program :: (SerTok.num t.arguments.length :: (List.map SerTok.str t.arguments ++ (encodeOptionStr t.stdout_path ++ (SerTok.num t.dependencies.length :: (List.map SerTok.str t.dependencies ++ rest))))))) = some (t.name, _) from rfl]
  simp only [Option.bind_eq_bind, Option.some_bind]
  rw [show decodeStr (SerTok.str t.program :: (SerTok.num t.arguments.length :: (List.map SerTok.str t.arguments ++ (encodeOptionStr t.stdout_path ++ (SerTok.num t.dependencies.length :: (List.map SerTok.str t.dependencies ++ rest)))))) = some (t.program, _) from rfl]
  simp only [Option.some_bind]
  rw [show decodeNum (SerTok.num t.arguments.length :: (List.map SerTok.str t.arguments ++ (encodeOptionStr t.stdout_path ++ (SerTok.num t.dependencies.length :: (List.map SerTok.str t.dependencies ++ rest))))) = some (t.arguments.length, _) from rfl]
  simp only [Option.some_bind]
  rw [decodeStrList_encode]
  simp only [Option.some_bind]
  rw [decodeOptionStr_encode]
  simp only [Option.some_bind]
  rw [show decodeNum (SerTok.num t.dependencies.length :: (List.map SerTok.str t.dependencies ++ rest)) = some (t.dependencies.length, _) from rfl]
  simp only [Option.some_bind]
  rw [decodeStrList_encode]
  simp only [Option.some_bind]

theorem decodeTaskList_encode :
    ∀ (ts : List WTask) (rest : List SerTok),
      decodeTaskList ts.length (ts.flatMap encodeTask ++ rest) = some (ts, rest) := by
  intro ts
  induction ts with
  | nil => intro rest; rfl
  | cons t tt ih =>
    intro rest
    simp only [List.length_cons, List.flatMap_cons, List.append_assoc]
    rw [decodeTaskList]
    rw [decodeTask_encode]
    simp only [Option.bind_eq_bind, Option.some_bind]
    rw [ih rest]
    simp only [Option.some_bind]

theorem decodePair_encode (a : String × String) (rest : List SerTok) :
    decodePair (encodePair a ++ rest) = some (a, rest) := by
  unfold decodePair encodePair
  rfl

theorem decodePairList_encode :
    ∀ (l : List (String × String)) (rest : List SerTok),
      decodePairList l.length (l.flatMap encodePair ++ rest) = some (l, rest) := by
  intro l
  induction l with
  | nil => intro rest; rfl
  | cons a ll ih =>
    intro rest
    simp only [List.length_cons, List.flatMap_cons, List.append_assoc]
    rw [decodePairList]
    rw [decodePair_encode]
    simp only [Option.bind_eq_bind, Option.some_bind]
    rw [ih rest]
    simp only [Option.some_bind]

theorem decodeUnit_encode (u : WorkUnit) (rest : List SerTok) :
    decodeUnit (serializeUnit u ++ rest) = some (u, rest) := by
  unfold decodeUnit serializeUnit
  simp only [List.cons_append, List.append_assoc, List.nil_append]
  rw [show decodeStr (SerTok.str u.name :: (SerTok.str u.working_directory :: (SerTok.num u.tasks.length :: (u.tasks.flatMap encodeTask ++ (SerTok.num u.artifacts.length :: (u.artifacts.flatMap encodePair ++ rest)))))) = some (u.name, _) from rfl]
  simp only [Option.bind_eq_bind, Option.some_bind]
  rw [show decodeStr (SerTok.str u.working_directory :: (SerTok.num u.tasks.length :: (u.tasks.flatMap encodeTask ++ (SerTok.num u.artifacts.length :: (u.artifacts.flatMap encodePair ++ rest))))) = some (u.working_directory, _) from rfl]
  simp only [Option.some_bind]
  rw [show decodeNum (SerTok.num u.tasks.length :: (u.tasks.flatMap encodeTask ++ (SerTok.num u.artifacts.length :: (u.artifacts.flatMap encodePair ++ rest)))) = some (u.tasks.length, _) from rfl]
  simp only [Option.some_bind]
  rw [decodeTaskList_encode]
  simp only [Option.some_bind]
  rw [show decodeNum (SerTok.num u.artifacts.length :: (u.artifacts.flatMap encodePair ++ rest)) = some (u.artifacts.length, _) from rfl]
  simp only [Option.some_bind]
  rw [decodePairList_encode]
  simp only [Option.some_bind]

/-- C8: serialising a Work Unit descriptor and deserialising it again
recovers the unit exactly - same Task list (with argument order), same
artifact registry - and therefore the deserialised unit executes identically
under every exit-status assignment. -/
theorem claim_C8_descriptor_roundtrip (u : WorkUnit) :
    deserializeUnit (serializeUnit u) = some u
    ∧ ∀ (exit : WTask → Nat) (v : WorkUnit),
        deserializeUnit (serializeUnit u) = some v →
          v.tasks = u.tasks ∧ v.artifacts = u.artifacts ∧
          executeUnit exit v = executeUnit exit u := by
  have hrt : deserializeUnit (serializeUnit u) = some u := by
    unfold deserializeUnit
    rw [show serializeUnit u = serializeUnit u ++ [] from (List.append_nil _).symm]
    rw [decodeUnit_encode]
  refine ⟨hrt, ?_⟩
  intro exit v hv
  rw [hrt] at hv
  cases Option.some.inj hv
  exact ⟨rfl, rfl, rfl⟩

theorem claim_C8_witness :
    deserializeUnit (serializeUnit c8unit) = some c8unit
    ∧ executeUnit (fun _ => 0) c8unit = executeUnit (fun _ => 0) c8unit :=
  ⟨(claim_C8_descriptor_roundtrip c8unit).1,
   ((claim_C8_descriptor_roundtrip c8unit).2 (fun _ => 0) c8unit
     (claim_C8_descriptor_roundtrip c8unit).1).2.2⟩
